import Mathlib

/-!
Verification of the torii data comparison script.

The script under scripts/compare-torii-data.py compares six tables between
two SQLite databases.  We embed it shallowly:

* a row returned by the SELECT projection is a pair of its first projected
  column value (the identity key) and the list of the remaining column
  values;
* a Python dict is an insertion-ordered association list whose keys are
  pairwise distinct; building a dict from rows replaces the value in place
  when a key repeats, keeping the original position (Python dict semantics);
* a store maps a table name to an optional list of rows (the result order
  of the SELECT); a missing table makes the query raise, which we model as
  Except.error ();
* printed discrepancy lines become a list of Discrepancy values and the
  differences_found flag is threaded through the loops exactly as in the
  source.
-/

set_option autoImplicit false
set_option linter.unusedVariables false
set_option linter.unusedSectionVars false

namespace ToriiCompare

variable {V : Type} [DecidableEq V]

/-- A snapshot entry pairs an identity key with the remaining column values. -/
abbrev Snapshot (V : Type) := List (V × List V)

/-- Membership test and value lookup of a Python dict: the keys are pairwise
distinct, so the first matching entry is the entry. -/
def dlookup : Snapshot V → V → Option (List V)
  | [], _ => none
  | p :: rest, k => if p.1 = k then some p.2 else dlookup rest k

/-- Insertion into a Python dict: an existing key keeps its position and gets
the new value, a new key is appended at the end. -/
def dictInsert : Snapshot V → V → List V → Snapshot V
  | [], k, v => [(k, v)]
  | p :: rest, k, v => if p.1 = k then (k, v) :: rest else p :: dictInsert rest k v

/-- The dict comprehension of fetch_table_data over the fetched rows:
row[0] becomes the key and row[1:] the value, later rows overwriting
earlier ones with the same key. -/
def dictOfRows (rows : List (V × List V)) : Snapshot V :=
  rows.foldl (fun d r => dictInsert d r.1 r.2) []

/-- Invariant of a row snapshot: identity keys are pairwise distinct.  Every
snapshot produced by dictOfRows satisfies it. -/
def snapshotWF (d : Snapshot V) : Prop := (d.map Prod.fst).Nodup

instance (d : Snapshot V) : Decidable (snapshotWF d) := by
  unfold snapshotWF; infer_instance

/-- A store: each table name is mapped to the rows the SELECT projection over
the planned columns returns, or none when the table does not exist, in which
case the query raises an operational error. -/
structure Store (V : Type) where
  tables : String → Option (List (V × List V))

/-- Embedding of fetch_table_data: connect, run the projection, build the
dict keyed by the first projected column.  The store is modelled as already
projected on the planned columns, so the columns argument does not reappear
on the right-hand side.  A missing table makes the query raise. -/
def fetch_table_data (db : Store V) (table_name : String) (columns : List String) :
    Except Unit (Snapshot V) :=
  match db.tables table_name with
  | none => Except.error ()
  | some rows => Except.ok (dictOfRows rows)

/-- Embedding of get_table_row_count: SELECT COUNT(*) counts every row of the
table, duplicates of the identity key included. -/
def get_table_row_count (db : Store V) (table_name : String) : Except Unit Nat :=
  match db.tables table_name with
  | none => Except.error ()
  | some rows => Except.ok rows.length

/-- One printed discrepancy line of compare_data, minus the table name that is
constant within one call. -/
inductive Discrepancy (V : Type) where
  | value_mismatch (key : V) (values_db1 values_db2 : List V)
  | missing_in_b (key : V)
  | missing_in_a (key : V)
  deriving DecidableEq, Repr

/-- The identity key a discrepancy line mentions. -/
def Discrepancy.key : Discrepancy V → V
  | .value_mismatch k _ _ => k
  | .missing_in_b k => k
  | .missing_in_a k => k

/-- True exactly on the lines the second loop of compare_data can print. -/
def Discrepancy.fromPassB : Discrepancy V → Bool
  | .missing_in_a _ => true
  | _ => false

/-- Swapping the roles of the two databases on one discrepancy line. -/
def Discrepancy.swap : Discrepancy V → Discrepancy V
  | .value_mismatch k va vb => .value_mismatch k vb va
  | .missing_in_b k => .missing_in_a k
  | .missing_in_a k => .missing_in_b k

/-- The line emitted by one iteration of the first loop of compare_data for
the entry kv of data1: a mismatch when the key is present with another value,
a missing_in_b when the key is absent from data2. -/
def f1 (data2 : Snapshot V) (kv : V × List V) : Option (Discrepancy V) :=
  match dlookup data2 kv.1 with
  | some v2 => if kv.2 = v2 then none else some (.value_mismatch kv.1 kv.2 v2)
  | none => some (.missing_in_b kv.1)

/-- The line emitted by one iteration of the second loop of compare_data for
the entry kv of data2. -/
def f2 (data1 : Snapshot V) (kv : V × List V) : Option (Discrepancy V) :=
  match dlookup data1 kv.1 with
  | some _ => none
  | none => some (.missing_in_a kv.1)

/-- One loop iteration of compare_data: append the emitted line, if any, to
the lines printed so far and raise the differences_found flag on emission. -/
def emitStep {α β : Type} (f : α → Option β) (acc : List β × Bool) (kv : α) :
    List β × Bool :=
  match f kv with
  | some d => (acc.1 ++ [d], true)
  | none => acc

/-- Embedding of compare_data: both loops of the source, accumulating the
printed discrepancy lines in order together with the differences_found flag,
which starts false and is set on every emission. -/
def compare_data (data1 data2 : Snapshot V) (table_name : String) :
    List (Discrepancy V) × Bool :=
  data2.foldl (emitStep (f2 data1))
    (data1.foldl (emitStep (f1 data2)) ([], false))

/-- Column list compared for the events table, as in compare_databases. -/
def events_columns : List String := ["id", "keys", "data", "transaction_hash"]

/-- Column list compared for the entities table. -/
def entities_columns : List String := ["id", "keys"]

/-- Column list compared for the transactions table. -/
def transactions_columns : List String :=
  ["id", "transaction_hash", "sender_address", "calldata", "max_fee",
    "signature", "nonce", "transaction_type"]

/-- Column list compared for the balances table. -/
def balances_columns : List String :=
  ["id", "balance", "account_address", "contract_address", "token_id"]

/-- Column list compared for the tokens table. -/
def tokens_columns : List String :=
  ["id", "contract_address", "name", "symbol", "decimals"]

/-- Column list compared for the erc_transfers table. -/
def erc_transfers_columns : List String :=
  ["id", "contract_address", "from_address", "to_address", "amount", "token_id"]

/-- The comparison plan: the table names in the order compare_databases
fetches, counts and compares them. -/
def tablePlan : List String :=
  ["events", "entities", "transactions", "balances", "tokens", "erc_transfers"]

/-- One block of the printed output for one table: both row counts and the
outcome of compare_data, namely its discrepancy lines and the value of the
differences_found flag. -/
structure TableReport (V : Type) where
  table : String
  count_db1 : Nat
  count_db2 : Nat
  result : List (Discrepancy V) × Bool
  deriving DecidableEq

/-- Embedding of compare_databases: fetch the six tables from both stores in
source order, then take every row count, then compare each table.  There is
no table-existence probe and no exception handler, so an error raised by any
query propagates and aborts the whole run. -/
def compare_databases (db1 db2 : Store V) :
    Except Unit (List (TableReport V)) := do
  let events_data_db1 ← fetch_table_data db1 "events" events_columns
  let events_data_db2 ← fetch_table_data db2 "events" events_columns
  let entities_data_db1 ← fetch_table_data db1 "entities" entities_columns
  let entities_data_db2 ← fetch_table_data db2 "entities" entities_columns
  let transactions_data_db1 ← fetch_table_data db1 "transactions" transactions_columns
  let transactions_data_db2 ← fetch_table_data db2 "transactions" transactions_columns
  let balances_data_db1 ← fetch_table_data db1 "balances" balances_columns
  let balances_data_db2 ← fetch_table_data db2 "balances" balances_columns
  let tokens_data_db1 ← fetch_table_data db1 "tokens" tokens_columns
  let tokens_data_db2 ← fetch_table_data db2 "tokens" tokens_columns
  let erc_transfers_data_db1 ← fetch_table_data db1 "erc_transfers" erc_transfers_columns
  let erc_transfers_data_db2 ← fetch_table_data db2 "erc_transfers" erc_transfers_columns
  let events_count_db1 ← get_table_row_count db1 "events"
  let events_count_db2 ← get_table_row_count db2 "events"
  let entities_count_db1 ← get_table_row_count db1 "entities"
  let entities_count_db2 ← get_table_row_count db2 "entities"
  let transactions_count_db1 ← get_table_row_count db1 "transactions"
  let transactions_count_db2 ← get_table_row_count db2 "transactions"
  let balances_count_db1 ← get_table_row_count db1 "balances"
  let balances_count_db2 ← get_table_row_count db2 "balances"
  let tokens_count_db1 ← get_table_row_count db1 "tokens"
  let tokens_count_db2 ← get_table_row_count db2 "tokens"
  let erc_transfers_count_db1 ← get_table_row_count db1 "erc_transfers"
  let erc_transfers_count_db2 ← get_table_row_count db2 "erc_transfers"
  pure
    [⟨"events", events_count_db1, events_count_db2,
        compare_data events_data_db1 events_data_db2 "events"⟩,
      ⟨"entities", entities_count_db1, entities_count_db2,
        compare_data entities_data_db1 entities_data_db2 "entities"⟩,
      ⟨"transactions", transactions_count_db1, transactions_count_db2,
        compare_data transactions_data_db1 transactions_data_db2 "transactions"⟩,
      ⟨"balances", balances_count_db1, balances_count_db2,
        compare_data balances_data_db1 balances_data_db2 "balances"⟩,
      ⟨"tokens", tokens_count_db1, tokens_count_db2,
        compare_data tokens_data_db1 tokens_data_db2 "tokens"⟩,
      ⟨"erc_transfers", erc_transfers_count_db1, erc_transfers_count_db2,
        compare_data erc_transfers_data_db1 erc_transfers_data_db2 "erc_transfers"⟩]

/-! Concrete stores used for witnesses and counterexamples. -/

/-- A store with all six tables; its events table holds one row. -/
def storeA : Store Nat :=
  ⟨fun t => if t = "events" then some [(1, [10])] else some []⟩

/-- A store with all six tables whose events row differs from storeA. -/
def storeB : Store Nat :=
  ⟨fun t => if t = "events" then some [(1, [20])] else some []⟩

/-- A store lacking the balances table, all other tables empty. -/
def storeNoBalances : Store Nat :=
  ⟨fun t => if t = "balances" then none else some []⟩

/-- A store lacking the transactions table, all other tables nonempty. -/
def storeNoTransactions : Store Nat :=
  ⟨fun t => if t = "transactions" then none else some [(1, [1])]⟩

/-- A complete store whose tables disagree with storeNoTransactions. -/
def storeOther : Store Nat :=
  ⟨fun t => some [(2, [2])]⟩

/-- A store whose events table has two rows with the same identity key. -/
def storeDupKeys : Store Nat :=
  ⟨fun t => if t = "events" then some [(1, [10]), (1, [20])] else some []⟩

/-- A store whose events table repeats key 1 with a later different tuple. -/
def storeLastWins : Store Nat :=
  ⟨fun t => if t = "events" then some [(1, [10]), (2, [20]), (1, [11])] else some []⟩

/-! Basic facts about dict lookup and insertion. -/

theorem dlookup_isSome_iff (d : Snapshot V) (k : V) :
    (dlookup d k).isSome ↔ k ∈ d.map Prod.fst := by
  induction d with
  | nil => simp [dlookup]
  | cons p rest ih =>
    by_cases h : p.1 = k
    · simp [dlookup, h]
    · simp [dlookup, h, ih, Ne.symm h]

theorem dlookup_eq_none_iff (d : Snapshot V) (k : V) :
    dlookup d k = none ↔ k ∉ d.map Prod.fst := by
  rw [← dlookup_isSome_iff]
  cases dlookup d k <;> simp

theorem dlookup_mem {d : Snapshot V} {k : V} {v : List V}
    (h : dlookup d k = some v) : (k, v) ∈ d := by
  induction d with
  | nil => simp [dlookup] at h
  | cons p rest ih =>
    by_cases hk : p.1 = k
    · rw [dlookup, if_pos hk] at h
      have hv : p.2 = v := by injection h
      have hp : (k, v) = p := by rw [← hk, ← hv]
      rw [hp]
      exact List.mem_cons_self p rest
    · rw [dlookup, if_neg hk] at h
      exact List.mem_cons_of_mem _ (ih h)

theorem mem_dlookup {d : Snapshot V} {k : V} {v : List V}
    (hwf : snapshotWF d) (h : (k, v) ∈ d) : dlookup d k = some v := by
  induction d with
  | nil => simp at h
  | cons p rest ih =>
    rw [snapshotWF, List.map_cons, List.nodup_cons] at hwf
    rcases List.mem_cons.mp h with h | h
    · rw [← h, dlookup, if_pos rfl]
    · have hne : p.1 ≠ k := by
        intro hk
        exact hwf.1 (hk ▸ (List.mem_map.mpr ⟨(k, v), h, rfl⟩))
      rw [dlookup, if_neg hne]
      exact ih hwf.2 h

theorem keys_dictInsert (d : Snapshot V) (k : V) (v : List V) :
    (dictInsert d k v).map Prod.fst =
      if k ∈ d.map Prod.fst then d.map Prod.fst else d.map Prod.fst ++ [k] := by
  induction d with
  | nil => simp [dictInsert]
  | cons p rest ih =>
    by_cases h : p.1 = k
    · simp [dictInsert, h]
    · by_cases hmem : k ∈ rest.map Prod.fst <;>
        simp [dictInsert, h, ih, hmem, Ne.symm h]

theorem snapshotWF_dictInsert {d : Snapshot V} (k : V) (v : List V)
    (h : snapshotWF d) : snapshotWF (dictInsert d k v) := by
  rw [snapshotWF, keys_dictInsert]
  by_cases hmem : k ∈ d.map Prod.fst
  · rwa [if_pos hmem]
  · rw [if_neg hmem, List.nodup_append]
    refine ⟨h, List.nodup_singleton k, ?_⟩
    intro a ha hak
    rw [List.mem_singleton] at hak
    exact hmem (hak ▸ ha)

theorem dictInsert_of_not_mem {d : Snapshot V} {k : V} (v : List V)
    (h : k ∉ d.map Prod.fst) : dictInsert d k v = d ++ [(k, v)] := by
  induction d with
  | nil => rfl
  | cons p rest ih =>
    simp only [List.map_cons, List.mem_cons] at h
    push_neg at h
    rw [dictInsert, if_neg (fun hk => h.1 hk.symm), ih h.2, List.cons_append]

theorem dlookup_dictInsert_self (d : Snapshot V) (k : V) (v : List V) :
    dlookup (dictInsert d k v) k = some v := by
  induction d with
  | nil => simp [dictInsert, dlookup]
  | cons p rest ih =>
    by_cases h : p.1 = k
    · rw [dictInsert, if_pos h, dlookup, if_pos rfl]
    · rw [dictInsert, if_neg h, dlookup, if_neg h]
      exact ih

theorem dlookup_dictInsert_ne (d : Snapshot V) {k k' : V} (v : List V)
    (h : k' ≠ k) : dlookup (dictInsert d k v) k' = dlookup d k' := by
  have hne : k ≠ k' := fun hk => h hk.symm
  induction d with
  | nil => simp [dictInsert, dlookup, hne]
  | cons p rest ih =>
    by_cases hp : p.1 = k
    · rw [dictInsert, if_pos hp, dlookup, if_neg hne, dlookup,
        if_neg (fun hk' => hne (hp.symm.trans hk'))]
    · rw [dictInsert, if_neg hp, dlookup, dlookup]
      by_cases hp' : p.1 = k'
      · rw [if_pos hp', if_pos hp']
      · rw [if_neg hp', if_neg hp']
        exact ih

theorem dictOfRows_concat (rows : List (V × List V)) (r : V × List V) :
    dictOfRows (rows ++ [r]) = dictInsert (dictOfRows rows) r.1 r.2 := by
  simp [dictOfRows, List.foldl_append]

theorem snapshotWF_dictOfRows (rows : List (V × List V)) :
    snapshotWF (dictOfRows rows) := by
  induction rows using List.reverseRecOn with
  | nil => exact List.nodup_nil
  | append_singleton l r ih =>
    rw [dictOfRows_concat]
    exact snapshotWF_dictInsert r.1 r.2 ih

theorem dlookup_dictOfRows (rows : List (V × List V)) (k : V) :
    dlookup (dictOfRows rows) k =
      ((rows.filter (fun r => decide (r.1 = k))).map Prod.snd).getLast? := by
  induction rows using List.reverseRecOn with
  | nil => rfl
  | append_singleton l r ih =>
    rw [dictOfRows_concat, List.filter_append]
    by_cases h : r.1 = k
    · rw [← h, dlookup_dictInsert_self]
      simp
    · rw [dlookup_dictInsert_ne _ _ (fun hk => h hk.symm), ih]
      simp [h]

theorem dictOfRows_of_nodup_keys {rows : List (V × List V)}
    (h : (rows.map Prod.fst).Nodup) : dictOfRows rows = rows := by
  induction rows using List.reverseRecOn with
  | nil => rfl
  | append_singleton l r ih =>
    rw [List.map_append, List.nodup_append] at h
    rw [dictOfRows_concat, ih h.1,
      dictInsert_of_not_mem _ (fun hmem => h.2.2 hmem (by simp))]

theorem length_dictInsert (d : Snapshot V) (k : V) (v : List V) :
    (dictInsert d k v).length =
      if k ∈ d.map Prod.fst then d.length else d.length + 1 := by
  induction d with
  | nil => simp [dictInsert]
  | cons p rest ih =>
    by_cases h : p.1 = k
    · simp [dictInsert, h]
    · by_cases hmem : k ∈ rest.map Prod.fst <;>
        simp [dictInsert, h, ih, hmem, Ne.symm h]

theorem mem_keys_dictOfRows (rows : List (V × List V)) (k : V) :
    k ∈ (dictOfRows rows).map Prod.fst ↔ k ∈ rows.map Prod.fst := by
  induction rows using List.reverseRecOn generalizing k with
  | nil => simp [dictOfRows]
  | append_singleton l r ih =>
    rw [dictOfRows_concat, keys_dictInsert]
    by_cases hmem : r.1 ∈ (dictOfRows l).map Prod.fst
    · rw [if_pos hmem, List.map_append, List.mem_append, ih k]
      constructor
      · exact Or.inl
      · rintro (h | h)
        · exact h
        · simp only [List.map_cons, List.map_nil, List.mem_singleton] at h
          rw [h]
          exact (ih r.1).mp hmem
    · rw [if_neg hmem]
      simp [ih]

theorem dictOfRows_length_le (rows : List (V × List V)) :
    (dictOfRows rows).length ≤ rows.length := by
  induction rows using List.reverseRecOn with
  | nil => simp [dictOfRows]
  | append_singleton l r ih =>
    rw [dictOfRows_concat, length_dictInsert, List.length_append]
    by_cases hmem : r.1 ∈ (dictOfRows l).map Prod.fst
    · rw [if_pos hmem]
      simp only [List.length_cons, List.length_nil]
      omega
    · rw [if_neg hmem]
      simp only [List.length_cons, List.length_nil]
      omega

theorem nodup_keys_of_dictOfRows_length {rows : List (V × List V)}
    (h : (dictOfRows rows).length = rows.length) :
    (rows.map Prod.fst).Nodup := by
  induction rows using List.reverseRecOn with
  | nil => simp
  | append_singleton l r ih =>
    rw [dictOfRows_concat, length_dictInsert, List.length_append] at h
    by_cases hmem : r.1 ∈ (dictOfRows l).map Prod.fst
    · rw [if_pos hmem] at h
      have hle := dictOfRows_length_le l
      simp only [List.length_cons, List.length_nil] at h
      exfalso
      omega
    · rw [if_neg hmem] at h
      simp only [List.length_cons, List.length_nil] at h
      have h2 : (dictOfRows l).length = l.length := by omega
      rw [List.map_append, List.nodup_append]
      refine ⟨ih h2, List.nodup_singleton _, ?_⟩
      intro a ha har
      simp only [List.map_cons, List.map_nil, List.mem_singleton] at har
      exact hmem ((mem_keys_dictOfRows l r.1).mpr (har ▸ ha))

/-! Characterization of compare_data as two filterMap passes. -/

theorem foldl_emit {α β : Type} (f : α → Option β) (l : List α) (acc : List β × Bool) :
    l.foldl (emitStep f) acc
    = (acc.1 ++ l.filterMap f, acc.2 || !(l.filterMap f).isEmpty) := by
  induction l generalizing acc with
  | nil => simp
  | cons a l ih =>
    rw [List.foldl_cons, ih]
    cases hf : f a <;> simp [emitStep, hf, List.filterMap_cons]

theorem compare_data_eq (data1 data2 : Snapshot V) (t : String) :
    compare_data data1 data2 t =
      (data1.filterMap (f1 data2) ++ data2.filterMap (f2 data1),
        !((data1.filterMap (f1 data2) ++ data2.filterMap (f2 data1)).isEmpty)) := by
  unfold compare_data
  rw [foldl_emit, foldl_emit]
  simp
  cases List.filterMap (f1 data2) data1 <;> simp

theorem f1_key {data2 : Snapshot V} {kv : V × List V} {d : Discrepancy V}
    (h : f1 data2 kv = some d) : d.key = kv.1 := by
  unfold f1 at h
  split at h
  · split at h
    · cases h
    · injection h with h; rw [← h]; rfl
  · injection h with h; rw [← h]; rfl

theorem f2_key {data1 : Snapshot V} {kv : V × List V} {d : Discrepancy V}
    (h : f2 data1 kv = some d) : d.key = kv.1 := by
  unfold f2 at h
  split at h
  · cases h
  · injection h with h; rw [← h]; rfl

theorem f1_fromPassB {data2 : Snapshot V} {kv : V × List V} {d : Discrepancy V}
    (h : f1 data2 kv = some d) : d.fromPassB = false := by
  unfold f1 at h
  split at h
  · split at h
    · cases h
    · injection h with h; rw [← h]; rfl
  · injection h with h; rw [← h]; rfl

theorem f2_fromPassB {data1 : Snapshot V} {kv : V × List V} {d : Discrepancy V}
    (h : f2 data1 kv = some d) : d.fromPassB = true := by
  unfold f2 at h
  split at h
  · cases h
  · injection h with h; rw [← h]; rfl

theorem mismatch_mem_pass1 {d1 d2 : Snapshot V} {k : V} {v1 v2 : List V}
    (h1 : snapshotWF d1) :
    Discrepancy.value_mismatch k v1 v2 ∈ d1.filterMap (f1 d2) ↔
      dlookup d1 k = some v1 ∧ dlookup d2 k = some v2 ∧ v1 ≠ v2 := by
  rw [List.mem_filterMap]
  constructor
  · rintro ⟨kv, hmem, hf⟩
    unfold f1 at hf
    split at hf
    · rename_i w hl
      split at hf
      · cases hf
      · rename_i he
        injection hf with hf
        injection hf with hk hv hw
        refine ⟨?_, ?_, ?_⟩
        · rw [← hk, ← hv]
          exact mem_dlookup h1 hmem
        · rw [← hk, ← hw]
          exact hl
        · rw [← hv, ← hw]
          exact he
    · injection hf with hf
      injection hf
  · rintro ⟨hl1, hl2, hne⟩
    refine ⟨(k, v1), dlookup_mem hl1, ?_⟩
    unfold f1
    simp [hl2, hne]

theorem missing_b_mem_pass1 {d1 d2 : Snapshot V} {k : V} :
    Discrepancy.missing_in_b k ∈ d1.filterMap (f1 d2) ↔
      (dlookup d1 k).isSome ∧ dlookup d2 k = none := by
  rw [List.mem_filterMap]
  constructor
  · rintro ⟨kv, hmem, hf⟩
    unfold f1 at hf
    split at hf
    · split at hf
      · cases hf
      · injection hf with hf
        injection hf
    · rename_i hl
      injection hf with hf
      injection hf with hk
      constructor
      · rw [dlookup_isSome_iff, ← hk]
        exact List.mem_map.mpr ⟨kv, hmem, rfl⟩
      · rw [← hk]
        exact hl
  · rintro ⟨hs, hl2⟩
    obtain ⟨v, hv⟩ := Option.isSome_iff_exists.mp hs
    refine ⟨(k, v), dlookup_mem hv, ?_⟩
    unfold f1
    simp [hl2]

theorem missing_a_not_mem_pass1 {d1 d2 : Snapshot V} {k : V} :
    Discrepancy.missing_in_a k ∉ d1.filterMap (f1 d2) := by
  rw [List.mem_filterMap]
  rintro ⟨kv, hmem, hf⟩
  have := f1_fromPassB hf
  simp [Discrepancy.fromPassB] at this

theorem pass2_shape {d1 d2 : Snapshot V} {d : Discrepancy V}
    (h : d ∈ d2.filterMap (f2 d1)) :
    ∃ k, d = Discrepancy.missing_in_a k ∧ dlookup d1 k = none ∧
      (dlookup d2 k).isSome := by
  rw [List.mem_filterMap] at h
  obtain ⟨kv, hmem, hf⟩ := h
  unfold f2 at hf
  split at hf
  · cases hf
  · rename_i hl
    injection hf with hf
    refine ⟨kv.1, hf.symm, hl, ?_⟩
    rw [dlookup_isSome_iff]
    exact List.mem_map.mpr ⟨kv, hmem, rfl⟩

theorem missing_a_mem_pass2 {d1 d2 : Snapshot V} {k : V} :
    Discrepancy.missing_in_a k ∈ d2.filterMap (f2 d1) ↔
      dlookup d1 k = none ∧ (dlookup d2 k).isSome := by
  constructor
  · intro h
    obtain ⟨k2, hk2, hl1, hl2⟩ := pass2_shape h
    injection hk2 with hk2
    rw [hk2]
    exact ⟨hl1, hl2⟩
  · rintro ⟨hl1, hs⟩
    obtain ⟨v, hv⟩ := Option.isSome_iff_exists.mp hs
    rw [List.mem_filterMap]
    refine ⟨(k, v), dlookup_mem hv, ?_⟩
    unfold f2
    simp [hl1]

theorem mismatch_not_mem_pass2 {d1 d2 : Snapshot V} {k : V} {v1 v2 : List V} :
    Discrepancy.value_mismatch k v1 v2 ∉ d2.filterMap (f2 d1) := by
  intro h
  obtain ⟨k2, hk2, -, -⟩ := pass2_shape h
  cases hk2

theorem missing_b_not_mem_pass2 {d1 d2 : Snapshot V} {k : V} :
    Discrepancy.missing_in_b k ∉ d2.filterMap (f2 d1) := by
  intro h
  obtain ⟨k2, hk2, -, -⟩ := pass2_shape h
  cases hk2

theorem pass1_key_isSome {d1 d2 : Snapshot V} {d : Discrepancy V}
    (h : d ∈ d1.filterMap (f1 d2)) : (dlookup d1 d.key).isSome := by
  rw [List.mem_filterMap] at h
  obtain ⟨kv, hmem, hf⟩ := h
  rw [f1_key hf, dlookup_isSome_iff]
  exact List.mem_map.mpr ⟨kv, hmem, rfl⟩

theorem pass2_key_none {d1 d2 : Snapshot V} {d : Discrepancy V}
    (h : d ∈ d2.filterMap (f2 d1)) : dlookup d1 d.key = none := by
  obtain ⟨k, hk, hl1, -⟩ := pass2_shape h
  rw [hk]
  exact hl1

theorem keys_nodup_filterMap (f : (V × List V) → Option (Discrepancy V))
    (hf : ∀ kv d, f kv = some d → Discrepancy.key d = kv.1)
    {l : Snapshot V} (h : (l.map Prod.fst).Nodup) :
    ((l.filterMap f).map Discrepancy.key).Nodup := by
  induction l with
  | nil => simp
  | cons kv l ih =>
    rw [List.map_cons, List.nodup_cons] at h
    rw [List.filterMap_cons]
    cases hkv : f kv with
    | none => exact ih h.2
    | some d =>
      rw [List.map_cons, List.nodup_cons]
      refine ⟨?_, ih h.2⟩
      intro hmem
      rw [List.mem_map] at hmem
      obtain ⟨d2, hd2, hkey⟩ := hmem
      rw [List.mem_filterMap] at hd2
      obtain ⟨kv2, hkv2, hf2⟩ := hd2
      refine h.1 ?_
      rw [← hf kv d hkv, ← hkey, hf kv2 d2 hf2]
      exact List.mem_map.mpr ⟨kv2, hkv2, rfl⟩

theorem compare_data_keys_nodup {d1 d2 : Snapshot V} (t : String)
    (h1 : snapshotWF d1) (h2 : snapshotWF d2) :
    (((compare_data d1 d2 t).1).map Discrepancy.key).Nodup := by
  rw [compare_data_eq, List.map_append, List.nodup_append]
  refine ⟨keys_nodup_filterMap _ (fun kv d h => f1_key h) h1,
    keys_nodup_filterMap _ (fun kv d h => f2_key h) h2, ?_⟩
  intro a ha hb
  rw [List.mem_map] at ha hb
  obtain ⟨da, hda, rfl⟩ := ha
  obtain ⟨db, hdb, hkey⟩ := hb
  have hsa := pass1_key_isSome hda
  have hsb := pass2_key_none hdb
  rw [← hkey, hsb] at hsa
  simp at hsa

theorem compare_data_nodup {d1 d2 : Snapshot V} (t : String)
    (h1 : snapshotWF d1) (h2 : snapshotWF d2) :
    ((compare_data d1 d2 t).1).Nodup :=
  (compare_data_keys_nodup t h1 h2).of_map

/-! Facts about the full output of compare_data. -/

theorem compare_data_fst (data1 data2 : Snapshot V) (t : String) :
    (compare_data data1 data2 t).1 =
      data1.filterMap (f1 data2) ++ data2.filterMap (f2 data1) := by
  rw [compare_data_eq]

theorem compare_data_snd (data1 data2 : Snapshot V) (t : String) :
    (compare_data data1 data2 t).2 = !((compare_data data1 data2 t).1).isEmpty := by
  rw [compare_data_eq]

theorem mismatch_mem_out {d1 d2 : Snapshot V} (t : String) {k : V} {v1 v2 : List V}
    (h1 : snapshotWF d1) :
    Discrepancy.value_mismatch k v1 v2 ∈ (compare_data d1 d2 t).1 ↔
      dlookup d1 k = some v1 ∧ dlookup d2 k = some v2 ∧ v1 ≠ v2 := by
  rw [compare_data_fst, List.mem_append]
  constructor
  · rintro (h | h)
    · exact (mismatch_mem_pass1 h1).mp h
    · exact absurd h mismatch_not_mem_pass2
  · intro h
    exact Or.inl ((mismatch_mem_pass1 h1).mpr h)

theorem missing_b_mem_out {d1 d2 : Snapshot V} (t : String) {k : V} :
    Discrepancy.missing_in_b k ∈ (compare_data d1 d2 t).1 ↔
      (dlookup d1 k).isSome ∧ dlookup d2 k = none := by
  rw [compare_data_fst, List.mem_append]
  constructor
  · rintro (h | h)
    · exact missing_b_mem_pass1.mp h
    · exact absurd h missing_b_not_mem_pass2
  · intro h
    exact Or.inl (missing_b_mem_pass1.mpr h)

theorem missing_a_mem_out {d1 d2 : Snapshot V} (t : String) {k : V} :
    Discrepancy.missing_in_a k ∈ (compare_data d1 d2 t).1 ↔
      dlookup d1 k = none ∧ (dlookup d2 k).isSome := by
  rw [compare_data_fst, List.mem_append]
  constructor
  · rintro (h | h)
    · exact absurd h missing_a_not_mem_pass1
    · exact missing_a_mem_pass2.mp h
  · intro h
    exact Or.inr (missing_a_mem_pass2.mpr h)

theorem differences_found_iff (d1 d2 : Snapshot V) (t : String) :
    ((compare_data d1 d2 t).2 = false ↔ (compare_data d1 d2 t).1 = []) := by
  rw [compare_data_snd]
  cases h : (compare_data d1 d2 t).1 <;> simp [h]

theorem pass1_mem_fromPassB {d1 d2 : Snapshot V} {d : Discrepancy V}
    (h : d ∈ d1.filterMap (f1 d2)) : d.fromPassB = false := by
  rw [List.mem_filterMap] at h
  obtain ⟨kv, -, hf⟩ := h
  exact f1_fromPassB hf

theorem pass2_mem_fromPassB {d1 d2 : Snapshot V} {d : Discrepancy V}
    (h : d ∈ d2.filterMap (f2 d1)) : d.fromPassB = true := by
  rw [List.mem_filterMap] at h
  obtain ⟨kv, -, hf⟩ := h
  exact f2_fromPassB hf

theorem compare_data_of_eq_lookup {d1 d2 : Snapshot V} (t : String)
    (h1 : snapshotWF d1) (h : ∀ k, dlookup d1 k = dlookup d2 k) :
    compare_data d1 d2 t = ([], false) := by
  have hp1 : d1.filterMap (f1 d2) = [] := by
    rw [List.filterMap_eq_nil_iff]
    intro kv hmem
    unfold f1
    rw [← h kv.1, mem_dlookup h1 hmem]
    simp
  have hp2 : d2.filterMap (f2 d1) = [] := by
    rw [List.filterMap_eq_nil_iff]
    intro kv hmem
    have hs : (dlookup d2 kv.1).isSome := by
      rw [dlookup_isSome_iff]
      exact List.mem_map.mpr ⟨kv, hmem, rfl⟩
    obtain ⟨w, hw⟩ := Option.isSome_iff_exists.mp hs
    unfold f2
    rw [h kv.1, hw]
  rw [compare_data_eq, hp1, hp2]
  rfl

theorem compare_data_self {d : Snapshot V} (t : String) (h : snapshotWF d) :
    compare_data d d t = ([], false) :=
  compare_data_of_eq_lookup t h (fun _ => rfl)

/-! Per-key uniqueness helpers. -/

theorem length_filter_key_le_one {α β : Type} [DecidableEq β] (f : α → β)
    {l : List α} (h : (l.map f).Nodup) (k : β) :
    (l.filter (fun x => decide (f x = k))).length ≤ 1 := by
  induction l with
  | nil => simp
  | cons a l ih =>
    rw [List.map_cons, List.nodup_cons] at h
    rw [List.filter_cons]
    by_cases hk : f a = k
    · have hnil : l.filter (fun x => decide (f x = k)) = [] := by
        rw [List.filter_eq_nil_iff]
        intro x hx hfx
        rw [decide_eq_true_iff] at hfx
        exact h.1 (List.mem_map.mpr ⟨x, hx, hfx.trans hk.symm⟩)
      simp [hk, hnil]
    · simpa [hk] using ih h.2

theorem no_discrepancy_of_agree {d1 d2 : Snapshot V} {k : V} {v : List V}
    (t : String) (h1 : snapshotWF d1)
    (hv1 : dlookup d1 k = some v) (hv2 : dlookup d2 k = some v) :
    ∀ d ∈ (compare_data d1 d2 t).1, d.key ≠ k := by
  intro d hd hk
  rw [compare_data_fst, List.mem_append] at hd
  rcases hd with hd | hd
  · rw [List.mem_filterMap] at hd
    obtain ⟨kv, hmem, hf⟩ := hd
    have hkv1 : kv.1 = k := by rw [← f1_key hf, hk]
    have hval : dlookup d1 kv.1 = some kv.2 := mem_dlookup h1 hmem
    rw [hkv1, hv1] at hval
    injection hval with hval
    unfold f1 at hf
    split at hf
    · rename_i w hl
      split at hf
      · cases hf
      · rename_i hne
        rw [hkv1, hv2] at hl
        injection hl with hl
        exact hne (hval.symm.trans hl)
    · rename_i hl
      rw [hkv1, hv2] at hl
      cases hl
  · have hnone := pass2_key_none hd
    rw [hk, hv1] at hnone
    cases hnone

/-! Claims about the row-set differ. -/

/-- C3: for snapshots with the documented key invariant, compare_data emits
missing_in_b exactly for the keys of data1 absent from data2, value_mismatch
exactly for the keys present in both snapshots with element-wise unequal
value tuples, missing_in_a exactly for the keys of data2 absent from data1,
the differences_found flag is false iff no discrepancy was emitted in either
pass, and every first-pass discrepancy precedes every second-pass one. -/
theorem c3_differ_characterization (d1 d2 : Snapshot V) (t : String)
    (k : V) (v1 v2 : List V) (h1 : snapshotWF d1) (h2 : snapshotWF d2) :
    (Discrepancy.missing_in_b k ∈ (compare_data d1 d2 t).1 ↔
      (dlookup d1 k).isSome ∧ dlookup d2 k = none) ∧
    (Discrepancy.value_mismatch k v1 v2 ∈ (compare_data d1 d2 t).1 ↔
      dlookup d1 k = some v1 ∧ dlookup d2 k = some v2 ∧ v1 ≠ v2) ∧
    (Discrepancy.missing_in_a k ∈ (compare_data d1 d2 t).1 ↔
      dlookup d1 k = none ∧ (dlookup d2 k).isSome) ∧
    ((compare_data d1 d2 t).2 = false ↔ (compare_data d1 d2 t).1 = []) ∧
    (∃ la lb, (compare_data d1 d2 t).1 = la ++ lb ∧
      (∀ d ∈ la, d.fromPassB = false) ∧ (∀ d ∈ lb, d.fromPassB = true)) :=
  ⟨missing_b_mem_out t, mismatch_mem_out t h1, missing_a_mem_out t,
    differences_found_iff d1 d2 t,
    ⟨d1.filterMap (f1 d2), d2.filterMap (f2 d1), compare_data_fst d1 d2 t,
      fun _ hd => pass1_mem_fromPassB hd, fun _ hd => pass2_mem_fromPassB hd⟩⟩

/-- Witness for C3 on concrete snapshots. -/
theorem c3_differ_characterization_witness :
    snapshotWF ([(1, [10]), (2, [20]), (3, [30])] : Snapshot Nat) ∧
    snapshotWF ([(1, [10]), (2, [21]), (4, [40])] : Snapshot Nat) ∧
    ((Discrepancy.missing_in_b 2 ∈
        (compare_data [(1, [10]), (2, [20]), (3, [30])]
          [(1, [10]), (2, [21]), (4, [40])] "events").1 ↔
      (dlookup [(1, [10]), (2, [20]), (3, [30])] 2).isSome ∧
        dlookup [(1, [10]), (2, [21]), (4, [40])] 2 = none) ∧
    (Discrepancy.value_mismatch 2 [20] [21] ∈
        (compare_data [(1, [10]), (2, [20]), (3, [30])]
          [(1, [10]), (2, [21]), (4, [40])] "events").1 ↔
      dlookup [(1, [10]), (2, [20]), (3, [30])] 2 = some [20] ∧
        dlookup [(1, [10]), (2, [21]), (4, [40])] 2 = some [21] ∧ [20] ≠ [21]) ∧
    (Discrepancy.missing_in_a 2 ∈
        (compare_data [(1, [10]), (2, [20]), (3, [30])]
          [(1, [10]), (2, [21]), (4, [40])] "events").1 ↔
      dlookup [(1, [10]), (2, [20]), (3, [30])] 2 = none ∧
        (dlookup [(1, [10]), (2, [21]), (4, [40])] 2).isSome) ∧
    ((compare_data [(1, [10]), (2, [20]), (3, [30])]
          [(1, [10]), (2, [21]), (4, [40])] "events").2 = false ↔
      (compare_data [(1, [10]), (2, [20]), (3, [30])]
          [(1, [10]), (2, [21]), (4, [40])] "events").1 = []) ∧
    (∃ la lb,
      (compare_data [(1, [10]), (2, [20]), (3, [30])]
          [(1, [10]), (2, [21]), (4, [40])] "events").1 = la ++ lb ∧
      (∀ d ∈ la, d.fromPassB = false) ∧ (∀ d ∈ lb, d.fromPassB = true))) :=
  ⟨by decide, by decide,
    c3_differ_characterization _ _ "events" 2 [20] [21] (by decide) (by decide)⟩

/-- C5: comparing a snapshot against itself yields zero discrepancies and a
report marked all equal, for every table name. -/
theorem c5_idempotence (d : Snapshot V) (t : String) (h : snapshotWF d) :
    compare_data d d t = ([], false) :=
  compare_data_self t h

/-- Witness for C5 on a concrete snapshot. -/
theorem c5_idempotence_witness :
    snapshotWF ([(5, [50]), (6, [60])] : Snapshot Nat) ∧
    compare_data ([(5, [50]), (6, [60])] : Snapshot Nat)
      [(5, [50]), (6, [60])] "entities" = ([], false) :=
  ⟨by decide, c5_idempotence _ "entities" (by decide)⟩

/-- C6: a key present only in the first snapshot produces exactly one
missing_in_b line and no missing_in_a line, and swapping the two snapshot
arguments turns each discrepancy into its direction-swapped counterpart,
mismatches keeping their key with the two value tuples exchanged. -/
theorem c6_swap_symmetry (d1 d2 : Snapshot V) (t : String)
    (h1 : snapshotWF d1) (h2 : snapshotWF d2) :
    (∀ k, (dlookup d1 k).isSome → dlookup d2 k = none →
      ((compare_data d1 d2 t).1.count (Discrepancy.missing_in_b k) = 1 ∧
        (compare_data d1 d2 t).1.count (Discrepancy.missing_in_a k) = 0)) ∧
    (∀ d, d ∈ (compare_data d2 d1 t).1 ↔
      Discrepancy.swap d ∈ (compare_data d1 d2 t).1) := by
  constructor
  · intro k hs hn
    constructor
    · exact List.count_eq_one_of_mem (compare_data_nodup t h1 h2)
        ((missing_b_mem_out t).mpr ⟨hs, hn⟩)
    · rw [List.count_eq_zero]
      intro hmem
      rw [missing_a_mem_out t] at hmem
      rw [hmem.1] at hs
      cases hs
  · intro d
    cases d with
    | value_mismatch k va vb =>
      rw [mismatch_mem_out t h2, Discrepancy.swap, mismatch_mem_out t h1]
      constructor
      · rintro ⟨ha, hb, hne⟩
        exact ⟨hb, ha, fun hh => hne hh.symm⟩
      · rintro ⟨hb, ha, hne⟩
        exact ⟨ha, hb, fun hh => hne hh.symm⟩
    | missing_in_b k =>
      rw [missing_b_mem_out t, Discrepancy.swap, missing_a_mem_out t]
      exact and_comm
    | missing_in_a k =>
      rw [missing_a_mem_out t, Discrepancy.swap, missing_b_mem_out t]
      exact and_comm

/-- Witness for C6 on concrete snapshots. -/
theorem c6_swap_symmetry_witness :
    snapshotWF ([(1, [1]), (2, [2])] : Snapshot Nat) ∧
    snapshotWF ([(2, [3])] : Snapshot Nat) ∧
    ((∀ k, (dlookup ([(1, [1]), (2, [2])] : Snapshot Nat) k).isSome →
      dlookup [(2, [3])] k = none →
      ((compare_data [(1, [1]), (2, [2])] [(2, [3])] "tokens").1.count
          (Discrepancy.missing_in_b k) = 1 ∧
        (compare_data [(1, [1]), (2, [2])] [(2, [3])] "tokens").1.count
          (Discrepancy.missing_in_a k) = 0)) ∧
    (∀ d, d ∈ (compare_data [(2, [3])] [(1, [1]), (2, [2])] "tokens").1 ↔
      Discrepancy.swap d ∈
        (compare_data [(1, [1]), (2, [2])] [(2, [3])] "tokens").1)) :=
  ⟨by decide, by decide, c6_swap_symmetry _ _ "tokens" (by decide) (by decide)⟩

/-- C9: with the key invariant, at most one discrepancy mentions any key, the
three kinds are mutually exclusive per key with their defining conditions, and
a key carrying equal tuples in both snapshots yields no discrepancy. -/
theorem c9_per_key_exclusivity (d1 d2 : Snapshot V) (t : String)
    (k : V) (v1 v2 : List V) (h1 : snapshotWF d1) (h2 : snapshotWF d2) :
    (((compare_data d1 d2 t).1.filter
        (fun d => decide (d.key = k))).length ≤ 1) ∧
    (Discrepancy.value_mismatch k v1 v2 ∈ (compare_data d1 d2 t).1 →
      (dlookup d1 k).isSome ∧ (dlookup d2 k).isSome ∧ v1 ≠ v2) ∧
    (Discrepancy.missing_in_b k ∈ (compare_data d1 d2 t).1 →
      (dlookup d1 k).isSome ∧ dlookup d2 k = none) ∧
    (Discrepancy.missing_in_a k ∈ (compare_data d1 d2 t).1 →
      dlookup d1 k = none ∧ (dlookup d2 k).isSome) ∧
    (∀ v, dlookup d1 k = some v → dlookup d2 k = some v →
      ∀ d ∈ (compare_data d1 d2 t).1, d.key ≠ k) := by
  refine ⟨?_, ?_, (missing_b_mem_out t).mp, (missing_a_mem_out t).mp,
    fun v hv1 hv2 => no_discrepancy_of_agree t h1 hv1 hv2⟩
  · exact length_filter_key_le_one Discrepancy.key
      (compare_data_keys_nodup t h1 h2) k
  · intro hmem
    rw [mismatch_mem_out t h1] at hmem
    exact ⟨Option.isSome_iff_exists.mpr ⟨v1, hmem.1⟩,
      Option.isSome_iff_exists.mpr ⟨v2, hmem.2.1⟩, hmem.2.2⟩

/-- Witness for C9 on concrete snapshots. -/
theorem c9_per_key_exclusivity_witness :
    snapshotWF ([(7, [70])] : Snapshot Nat) ∧
    snapshotWF ([(7, [70]), (8, [80])] : Snapshot Nat) ∧
    ((((compare_data [(7, [70])] [(7, [70]), (8, [80])] "balances").1.filter
        (fun d => decide (d.key = 7))).length ≤ 1) ∧
    (Discrepancy.value_mismatch 7 [1] [2] ∈
        (compare_data [(7, [70])] [(7, [70]), (8, [80])] "balances").1 →
      (dlookup ([(7, [70])] : Snapshot Nat) 7).isSome ∧
        (dlookup [(7, [70]), (8, [80])] 7).isSome ∧ ([1] : List Nat) ≠ [2]) ∧
    (Discrepancy.missing_in_b 7 ∈
        (compare_data [(7, [70])] [(7, [70]), (8, [80])] "balances").1 →
      (dlookup ([(7, [70])] : Snapshot Nat) 7).isSome ∧
        dlookup [(7, [70]), (8, [80])] 7 = none) ∧
    (Discrepancy.missing_in_a 7 ∈
        (compare_data [(7, [70])] [(7, [70]), (8, [80])] "balances").1 →
      dlookup ([(7, [70])] : Snapshot Nat) 7 = none ∧
        (dlookup [(7, [70]), (8, [80])] 7).isSome) ∧
    (∀ v, dlookup ([(7, [70])] : Snapshot Nat) 7 = some v →
      dlookup [(7, [70]), (8, [80])] 7 = some v →
      ∀ d ∈ (compare_data [(7, [70])] [(7, [70]), (8, [80])] "balances").1,
        d.key ≠ 7)) :=
  ⟨by decide, by decide,
    c9_per_key_exclusivity _ _ "balances" 7 [1] [2] (by decide) (by decide)⟩

/-- C10: diffing two empty snapshots emits no discrepancies and reports all
equal, and apart from the row counts the report of any fully matching table
is the very report of the empty versus empty case. -/
theorem c10_empty_vs_empty (t : String) :
    compare_data ([] : Snapshot V) [] t = ([], false) ∧
    (∀ d1 d2 : Snapshot V, snapshotWF d1 → (∀ k, dlookup d1 k = dlookup d2 k) →
      compare_data d1 d2 t = compare_data ([] : Snapshot V) [] t) :=
  ⟨rfl, fun _ _ h1 h => (compare_data_of_eq_lookup t h1 h).trans rfl⟩

/-- Witness for C10 at a concrete table name and value type. -/
theorem c10_empty_vs_empty_witness :
    compare_data ([] : Snapshot Nat) [] "erc_transfers" = ([], false) ∧
    (∀ d1 d2 : Snapshot Nat, snapshotWF d1 →
      (∀ k, dlookup d1 k = dlookup d2 k) →
      compare_data d1 d2 "erc_transfers" =
        compare_data ([] : Snapshot Nat) [] "erc_transfers") :=
  c10_empty_vs_empty "erc_transfers"

/-! Facts about the comparison driver. -/

theorem ok_bind {α β : Type} (a : α) (f : α → Except Unit β) :
    (Except.ok a >>= f) = f a := rfl

theorem pure_ok {α : Type} (a : α) : (pure a : Except Unit α) = Except.ok a := rfl

theorem bind_ok_inv {α β : Type} {e : Except Unit α} {f : α → Except Unit β}
    {r : β} (h : (e >>= f) = Except.ok r) :
    ∃ a, e = Except.ok a ∧ f a = Except.ok r := by
  cases e with
  | error u => exact absurd h (by simp [Bind.bind, Except.bind])
  | ok a => exact ⟨a, rfl, h⟩

theorem fetch_table_data_some {db : Store V} {t : String} (c : List String)
    {rows : List (V × List V)} (h : db.tables t = some rows) :
    fetch_table_data db t c = Except.ok (dictOfRows rows) := by
  unfold fetch_table_data
  rw [h]

theorem get_table_row_count_some {db : Store V} {t : String}
    {rows : List (V × List V)} (h : db.tables t = some rows) :
    get_table_row_count db t = Except.ok rows.length := by
  unfold get_table_row_count
  rw [h]

theorem fetch_ok_isSome {db : Store V} {t : String} {c : List String}
    {s : Snapshot V} (h : fetch_table_data db t c = Except.ok s) :
    (db.tables t).isSome := by
  unfold fetch_table_data at h
  split at h
  · cases h
  · rename_i rows hr
    rw [hr]
    rfl

theorem ok_all_present {db1 db2 : Store V} {reps : List (TableReport V)}
    (h : compare_databases db1 db2 = Except.ok reps) :
    ∀ t ∈ tablePlan, (db1.tables t).isSome ∧ (db2.tables t).isSome := by
  unfold compare_databases at h
  obtain ⟨e1, he1, h⟩ := bind_ok_inv h
  obtain ⟨e2, he2, h⟩ := bind_ok_inv h
  obtain ⟨n1, hn1, h⟩ := bind_ok_inv h
  obtain ⟨n2, hn2, h⟩ := bind_ok_inv h
  obtain ⟨x1, hx1, h⟩ := bind_ok_inv h
  obtain ⟨x2, hx2, h⟩ := bind_ok_inv h
  obtain ⟨b1, hb1, h⟩ := bind_ok_inv h
  obtain ⟨b2, hb2, h⟩ := bind_ok_inv h
  obtain ⟨k1, hk1, h⟩ := bind_ok_inv h
  obtain ⟨k2, hk2, h⟩ := bind_ok_inv h
  obtain ⟨c1, hc1, h⟩ := bind_ok_inv h
  obtain ⟨c2, hc2, h⟩ := bind_ok_inv h
  intro t ht
  simp only [tablePlan, List.mem_cons, List.not_mem_nil, or_false] at ht
  rcases ht with rfl | rfl | rfl | rfl | rfl | rfl
  · exact ⟨fetch_ok_isSome he1, fetch_ok_isSome he2⟩
  · exact ⟨fetch_ok_isSome hn1, fetch_ok_isSome hn2⟩
  · exact ⟨fetch_ok_isSome hx1, fetch_ok_isSome hx2⟩
  · exact ⟨fetch_ok_isSome hb1, fetch_ok_isSome hb2⟩
  · exact ⟨fetch_ok_isSome hk1, fetch_ok_isSome hk2⟩
  · exact ⟨fetch_ok_isSome hc1, fetch_ok_isSome hc2⟩

/-! Claims about the driver. -/

/-- C1 amended: compare_databases probes nothing and catches nothing; when a
planned table is absent from either store the fetch raises, the error
propagates out of the whole run, and no report or skip marker is produced. -/
theorem c1_absent_table_aborts_run (db1 db2 : Store V) (t : String)
    (hmem : t ∈ tablePlan) (habs : db1.tables t = none ∨ db2.tables t = none) :
    compare_databases db1 db2 = Except.error () := by
  cases hr : compare_databases db1 db2 with
  | ok reps =>
    exfalso
    have hpresent := ok_all_present hr t hmem
    rcases habs with habs | habs
    · rw [habs] at hpresent
      cases hpresent.1
    · rw [habs] at hpresent
      cases hpresent.2
  | error u => rfl

/-- Witness for C1: balances present in the first store, absent from the
second; the run returns an error rather than a skip marker. -/
theorem c1_absent_table_aborts_run_witness :
    "balances" ∈ tablePlan ∧
    (storeA.tables "balances" = none ∨ storeNoBalances.tables "balances" = none) ∧
    compare_databases storeA storeNoBalances = Except.error () :=
  ⟨by decide, Or.inr rfl,
    c1_absent_table_aborts_run storeA storeNoBalances "balances" (by decide)
      (Or.inr rfl)⟩

/-- C1 counterexample to the claim as stated: with the balances table present
in Store 1 and absent from Store 2, the driver raises instead of emitting a
skip marker, so the exception does propagate out of the overall run. -/
theorem c1_counterexample_skip :
    storeA.tables "balances" = some [] ∧
    storeNoBalances.tables "balances" = none ∧
    compare_databases storeA storeNoBalances = Except.error () :=
  ⟨rfl, rfl, rfl⟩

/-- C2 amended: a fetch failure for any planned table aborts the entire run,
not just that table; a report list is produced only when every planned table
was fetched successfully from both stores. -/
theorem c2_fetch_failure_aborts_run (db1 db2 : Store V)
    (reps : List (TableReport V))
    (h : compare_databases db1 db2 = Except.ok reps) :
    ∀ t ∈ tablePlan, (db1.tables t).isSome ∧ (db2.tables t).isSome :=
  ok_all_present h

/-- Witness for C2 on two complete concrete stores. -/
theorem c2_fetch_failure_aborts_run_witness :
    ∃ reps, compare_databases storeA storeB = Except.ok reps ∧
      (∀ t ∈ tablePlan, (storeA.tables t).isSome ∧ (storeB.tables t).isSome) :=
  ⟨[⟨"events", 1, 1, ([Discrepancy.value_mismatch 1 [10] [20]], true)⟩,
      ⟨"entities", 0, 0, ([], false)⟩,
      ⟨"transactions", 0, 0, ([], false)⟩,
      ⟨"balances", 0, 0, ([], false)⟩,
      ⟨"tokens", 0, 0, ([], false)⟩,
      ⟨"erc_transfers", 0, 0, ([], false)⟩],
    rfl, fun t ht => c2_fetch_failure_aborts_run storeA storeB _ rfl t ht⟩

/-- C2 counterexample to the claim as stated: the transactions fetch fails on
the first store while every later table is present and even discrepant, yet
the driver does not proceed to the remaining tables: the whole run errors and
no report at all is produced. -/
theorem c2_counterexample_continue :
    storeNoTransactions.tables "transactions" = none ∧
    storeOther.tables "balances" = some [(2, [2])] ∧
    compare_databases storeNoTransactions storeOther = Except.error () :=
  ⟨rfl, rfl, rfl⟩

/-- C4 amended: the reported row count of a store and table is the number of
rows of that table, which equals the number of snapshot entries exactly when
the identity keys of the fetched rows are pairwise distinct. -/
theorem c4_row_count (db : Store V) (tbl : String) (columns : List String)
    (rows : List (V × List V)) (h : db.tables tbl = some rows) :
    get_table_row_count db tbl = Except.ok rows.length ∧
    fetch_table_data db tbl columns = Except.ok (dictOfRows rows) ∧
    ((rows.map Prod.fst).Nodup ↔ (dictOfRows rows).length = rows.length) :=
  ⟨get_table_row_count_some h, fetch_table_data_some columns h,
    ⟨fun hn => by rw [dictOfRows_of_nodup_keys hn],
      nodup_keys_of_dictOfRows_length⟩⟩

/-- Witness for C4 on a store with distinct identity keys. -/
theorem c4_row_count_witness :
    storeA.tables "events" = some [(1, [10])] ∧
    (get_table_row_count storeA "events" =
        Except.ok ([((1 : Nat), [(10 : Nat)])] : List (Nat × List Nat)).length ∧
      fetch_table_data storeA "events" events_columns =
        Except.ok (dictOfRows [(1, [10])]) ∧
      ((([((1 : Nat), [(10 : Nat)])] : List (Nat × List Nat)).map
          Prod.fst).Nodup ↔
        (dictOfRows ([((1 : Nat), [(10 : Nat)])] : List (Nat × List Nat))).length =
          ([((1 : Nat), [(10 : Nat)])] : List (Nat × List Nat)).length)) :=
  ⟨rfl, c4_row_count storeA "events" events_columns [(1, [10])] rfl⟩

/-- C4 counterexample to the claim as stated: with duplicate identity keys,
COUNT(*) reports 2 rows while the fetched snapshot holds a single entry. -/
theorem c4_counterexample_duplicate_keys :
    get_table_row_count storeDupKeys "events" = Except.ok 2 ∧
    fetch_table_data storeDupKeys "events" events_columns =
      Except.ok [(1, [20])] ∧
    ([((1 : Nat), [(20 : Nat)])] : Snapshot Nat).length ≠ 2 :=
  ⟨rfl, rfl, by decide⟩

/-- C7: each fetched row is stored under its first projected column value
with the remaining values as the tuple; the snapshot lookup of a key yields
the tuple of the last fetched row bearing that key, so later duplicates
silently replace earlier rows, and without duplicates the snapshot is the
fetched row list itself. -/
theorem c7_fetch_last_wins (db : Store V) (tbl : String)
    (columns : List String) (rows : List (V × List V)) (k : V)
    (h : db.tables tbl = some rows) :
    fetch_table_data db tbl columns = Except.ok (dictOfRows rows) ∧
    dlookup (dictOfRows rows) k =
      ((rows.filter (fun r => decide (r.1 = k))).map Prod.snd).getLast? ∧
    ((rows.map Prod.fst).Nodup → dictOfRows rows = rows) :=
  ⟨fetch_table_data_some columns h, dlookup_dictOfRows rows k,
    dictOfRows_of_nodup_keys⟩

/-- Witness for C7: key 1 appears twice, the later tuple wins. -/
theorem c7_fetch_last_wins_witness :
    storeLastWins.tables "events" = some [(1, [10]), (2, [20]), (1, [11])] ∧
    (fetch_table_data storeLastWins "events" events_columns =
        Except.ok (dictOfRows [(1, [10]), (2, [20]), (1, [11])]) ∧
      dlookup (dictOfRows [(1, [10]), (2, [20]), (1, [11])]) 1 =
        ((([((1 : Nat), [(10 : Nat)]), (2, [20]), (1, [11])] :
            List (Nat × List Nat)).filter
          (fun r => decide (r.1 = 1))).map Prod.snd).getLast? ∧
      ((([((1 : Nat), [(10 : Nat)]), (2, [20]), (1, [11])] :
          List (Nat × List Nat)).map Prod.fst).Nodup →
        dictOfRows [(1, [10]), (2, [20]), (1, [11])] =
          [(1, [10]), (2, [20]), (1, [11])])) ∧
    dlookup (dictOfRows [(1, [10]), (2, [20]), (1, [11])]) 1 = some [11] :=
  ⟨rfl, c7_fetch_last_wins storeLastWins "events" events_columns _ 1 rfl, rfl⟩

/-- C8: when every planned table exists in both stores, the run completes
normally and returns its reports, whether or not discrepancies were found. -/
theorem c8_run_completes (db1 db2 : Store V)
    (h : ∀ t ∈ tablePlan, (db1.tables t).isSome ∧ (db2.tables t).isSome) :
    ∃ reps, compare_databases db1 db2 = Except.ok reps := by
  obtain ⟨e1, he1⟩ := Option.isSome_iff_exists.mp (h "events" (by decide)).1
  obtain ⟨e2, he2⟩ := Option.isSome_iff_exists.mp (h "events" (by decide)).2
  obtain ⟨n1, hn1⟩ := Option.isSome_iff_exists.mp (h "entities" (by decide)).1
  obtain ⟨n2, hn2⟩ := Option.isSome_iff_exists.mp (h "entities" (by decide)).2
  obtain ⟨x1, hx1⟩ := Option.isSome_iff_exists.mp (h "transactions" (by decide)).1
  obtain ⟨x2, hx2⟩ := Option.isSome_iff_exists.mp (h "transactions" (by decide)).2
  obtain ⟨b1, hb1⟩ := Option.isSome_iff_exists.mp (h "balances" (by decide)).1
  obtain ⟨b2, hb2⟩ := Option.isSome_iff_exists.mp (h "balances" (by decide)).2
  obtain ⟨k1, hk1⟩ := Option.isSome_iff_exists.mp (h "tokens" (by decide)).1
  obtain ⟨k2, hk2⟩ := Option.isSome_iff_exists.mp (h "tokens" (by decide)).2
  obtain ⟨c1, hc1⟩ := Option.isSome_iff_exists.mp (h "erc_transfers" (by decide)).1
  obtain ⟨c2, hc2⟩ := Option.isSome_iff_exists.mp (h "erc_transfers" (by decide)).2
  cases hr : compare_databases db1 db2 with
  | ok reps => exact ⟨reps, rfl⟩
  | error u =>
    exfalso
    unfold compare_databases at hr
    simp only [fetch_table_data_some events_columns he1,
      fetch_table_data_some events_columns he2,
      fetch_table_data_some entities_columns hn1,
      fetch_table_data_some entities_columns hn2,
      fetch_table_data_some transactions_columns hx1,
      fetch_table_data_some transactions_columns hx2,
      fetch_table_data_some balances_columns hb1,
      fetch_table_data_some balances_columns hb2,
      fetch_table_data_some tokens_columns hk1,
      fetch_table_data_some tokens_columns hk2,
      fetch_table_data_some erc_transfers_columns hc1,
      fetch_table_data_some erc_transfers_columns hc2,
      get_table_row_count_some he1, get_table_row_count_some he2,
      get_table_row_count_some hn1, get_table_row_count_some hn2,
      get_table_row_count_some hx1, get_table_row_count_some hx2,
      get_table_row_count_some hb1, get_table_row_count_some hb2,
      get_table_row_count_some hk1, get_table_row_count_some hk2,
      get_table_row_count_some hc1, get_table_row_count_some hc2,
      ok_bind, pure_ok] at hr
    exact Except.noConfusion hr

/-- Witness for C8 on two complete stores that do disagree on events. -/
theorem c8_run_completes_witness :
    (∀ t ∈ tablePlan, (storeA.tables t).isSome ∧ (storeB.tables t).isSome) ∧
    ∃ reps, compare_databases storeA storeB = Except.ok reps :=
  ⟨by decide, c8_run_completes storeA storeB (by decide)⟩

end ToriiCompare
